import Mathlib

/-!
Verification development for the CarryMonkey injection engine.

Shallow embedding of the injection strategy selector, the capability probe
cache, the build-mode feature flags, the unified injection engine
orchestration (single and batch), the enhanced (permissive) script executor
and the GM_xmlhttpRequest connect-whitelist gate, translated from the
TypeScript sources.  Host I/O outcomes (strategy injections, probe checks,
fetches) are passed in explicitly as environment values; the engine logic
itself is translated verbatim from the source control flow.
-/

namespace CarryMonkey

/-- Script metadata record (the fields of `script.meta` read by the embedded
code): `grant`, `run-at` and `sandbox` are optional in the source (read with
`|| []` / `|| 'document-end'` / `|| 'raw'` defaults); `connect` is accessed
directly (`script.meta.connect.some(...)`) in the GM API manager. -/
structure ScriptMeta where
  name : String
  grant : Option (List String)
  runAt : Option String
  sandbox : Option String
  connect : List String
deriving DecidableEq

/-- A user script: identifier, immutable content, metadata. -/
structure UserScript where
  id : String
  content : String
  meta : ScriptMeta
deriving DecidableEq

/-- `script.meta.grant || []` as it appears inline in the selector. -/
def scriptGrants (s : UserScript) : List String :=
  s.meta.grant.getD []

/-- `script.meta['run-at'] || 'document-end'`. -/
def scriptRunAt (s : UserScript) : String :=
  s.meta.runAt.getD "document-end"

/-- `script.meta.sandbox || 'raw'`. -/
def scriptSandbox (s : UserScript) : String :=
  s.meta.sandbox.getD "raw"

/-- Injection methods produced by `InjectionStrategySelector.selectStrategy`. -/
inductive InjMethod
  | userscriptsDynamic
  | userscriptsApi
  | contentScript
deriving DecidableEq

/-- Chrome execution worlds used by the selector. -/
inductive World
  | USER_SCRIPT
  | MAIN
deriving DecidableEq

/-- Chrome run-at timings. -/
inductive Timing
  | document_start
  | document_end
  | document_idle
deriving DecidableEq

/-- `InjectionStrategy` descriptor returned by the selector. -/
structure InjectionStrategy where
  method : InjMethod
  world : World
  timing : Timing
  reason : String
deriving DecidableEq

/-- `InjectionUtils.convertRunAtTiming`: switch over the `@run-at` string with
`document_end` as the default case. -/
def InjectionUtils.convertRunAtTiming (runAt : String) : Timing :=
  match runAt with
  | "document-start" => Timing.document_start
  | "document-end" => Timing.document_end
  | "document-idle" => Timing.document_idle
  | _ => Timing.document_end

/-- The five GM APIs the selector singles out:
`['GM_setValue', 'GM_getValue', 'GM_xmlhttpRequest', 'GM_getResourceText',
'GM_getResourceURL']`. -/
def specialAPIList : List String :=
  ["GM_setValue", "GM_getValue", "GM_xmlhttpRequest", "GM_getResourceText",
   "GM_getResourceURL"]

/-- `grants.length > 0 && !grants.every(g => g === 'none')`. -/
def hasGMAPIs (s : UserScript) : Bool :=
  decide ((scriptGrants s).length > 0) && !((scriptGrants s).all (fun g => g == "none"))

/-- `grants.some(g => [...specialAPIList...].includes(g))`. -/
def hasSpecialAPIs (s : UserScript) : Bool :=
  (scriptGrants s).any (fun g => specialAPIList.contains g)

/-- `runAt === 'document-start'`. -/
def needsEarlyExecution (s : UserScript) : Bool :=
  scriptRunAt s == "document-start"

/-- `sandboxMode !== 'raw' || hasGMAPIs`. -/
def selectorNeedsIsolation (s : UserScript) : Bool :=
  (scriptSandbox s != "raw") || hasGMAPIs s

/-- `InjectionStrategySelector.selectStrategy`.  The stateful probe reading
(`checkUserScriptsAPISupport`) is passed in as `supportsUserScriptsAPI`;
everything else is the source's branch chain translated verbatim. -/
def InjectionStrategySelector.selectStrategy (supportsUserScriptsAPI : Bool)
    (script : UserScript) : InjectionStrategy :=
  if needsEarlyExecution script && hasSpecialAPIs script && supportsUserScriptsAPI then
    { method := InjMethod.userscriptsDynamic
      world := World.USER_SCRIPT
      timing := Timing.document_start
      reason := "Early execution with GM APIs requires dynamic UserScripts API" }
  else if hasSpecialAPIs script && supportsUserScriptsAPI then
    { method := InjMethod.userscriptsApi
      world := World.USER_SCRIPT
      timing := InjectionUtils.convertRunAtTiming (scriptRunAt script)
      reason := "GM APIs require UserScripts API with message passing" }
  else if selectorNeedsIsolation script then
    { method := InjMethod.contentScript
      world := World.USER_SCRIPT
      timing := InjectionUtils.convertRunAtTiming (scriptRunAt script)
      reason := "Isolation required but UserScripts API not available, using content script" }
  else
    { method := InjMethod.contentScript
      world := World.MAIN
      timing := InjectionUtils.convertRunAtTiming (scriptRunAt script)
      reason := "Simple script without special requirements, using direct injection" }

/-- `InjectionStrategySelector.getStrategyScore`: base score by method, +20 on
timing match, +15 when GM APIs are granted and the world is USER_SCRIPT. -/
def InjectionStrategySelector.getStrategyScore (strategy : InjectionStrategy)
    (script : UserScript) : Nat :=
  let base : Nat :=
    match strategy.method with
    | InjMethod.userscriptsDynamic => 100
    | InjMethod.userscriptsApi => 80
    | InjMethod.contentScript => 60
  let timingBonus : Nat :=
    if InjectionUtils.convertRunAtTiming (scriptRunAt script) = strategy.timing then 20 else 0
  let gmBonus : Nat :=
    if (scriptGrants script).any (fun g => g != "none") && strategy.world == World.USER_SCRIPT
    then 15 else 0
  base + timingBonus + gmBonus

/-- The `features` record of a build mode (build-modes source). -/
structure BuildFeatures where
  userScriptsAPI : Bool
  legacyInjection : Bool
  dynamicCodeExecution : Bool
  strictCSP : Bool
  evalFallback : Bool
deriving DecidableEq

/-- A build mode: name, feature record, store-compliance flag (permissions and
the Chrome version bound are not read by any embedded code path). -/
structure BuildMode where
  name : String
  features : BuildFeatures
  storeCompliant : Bool
deriving DecidableEq

/-- `BUILD_MODES.store`. -/
def storeBuildMode : BuildMode :=
  { name := "Store Compliant"
    features :=
      { userScriptsAPI := true
        legacyInjection := false
        dynamicCodeExecution := false
        strictCSP := true
        evalFallback := false }
    storeCompliant := true }

/-- `BUILD_MODES.compat`. -/
def compatBuildMode : BuildMode :=
  { name := "Maximum Compatibility"
    features :=
      { userScriptsAPI := true
        legacyInjection := true
        dynamicCodeExecution := true
        strictCSP := true
        evalFallback := true }
    storeCompliant := false }

/-- `BUILD_MODES` as a lookup from the mode key, mirroring the
`Record<string, BuildMode>` with exactly the keys `store` and `compat`. -/
def BUILD_MODES (key : String) : Option BuildMode :=
  if key == "store" then some storeBuildMode
  else if key == "compat" then some compatBuildMode
  else none

/-- The flag record the engine reads.  `getFeatureFlags` in the build-modes
source spreads `mode.features` together with `storeCompliant: mode.storeCompliant`;
the engine's `isFeatureEnabled('storeCompliant') / ('legacyInjection') /
('evalFallback')` reads are embedded as field reads of this record. -/
structure FeatureFlags where
  storeCompliant : Bool
  userScriptsAPI : Bool
  legacyInjection : Bool
  dynamicCodeExecution : Bool
  strictCSP : Bool
  evalFallback : Bool
deriving DecidableEq

/-- `getFeatureFlags()` for a given build mode. -/
def getFeatureFlags (m : BuildMode) : FeatureFlags :=
  { storeCompliant := m.storeCompliant
    userScriptsAPI := m.features.userScriptsAPI
    legacyInjection := m.features.legacyInjection
    dynamicCodeExecution := m.features.dynamicCodeExecution
    strictCSP := m.features.strictCSP
    evalFallback := m.features.evalFallback }

/-- `validateScriptContent` result: `{safe, issues}`.  The validator itself
(`CompliantScriptExecutor`, imported by the engine) is outside the available
sources, so its per-call verdict is an environment value. -/
structure ValidationResult where
  safe : Bool
  issues : List String
deriving DecidableEq

/-- Host outcomes consumed by one `CompatibilityInjectionStrategy.inject` call:
whether its internal `CompliantInjectionStrategy.inject` attempt succeeds, and
whether the legacy `chrome.scripting.executeScript` fallback succeeds. -/
structure CompatEnv where
  compliantOk : Bool
  legacyOk : Bool
deriving DecidableEq

/-- `CompatibilityInjectionStrategy.inject` (legacy source): first tries the
compliant strategy; on failure falls back to the legacy injection methods.
Returns whether the call as a whole succeeds (does not throw). -/
def CompatibilityInjectionStrategy.inject (e : CompatEnv) : Bool :=
  if e.compliantOk then true else e.legacyOk

/-- The three cross-strategy fallback tiers of the engine: the compliant
strategy, the compatibility (permissive) strategy, and the guarded emergency
compatibility retry. -/
inductive Tier
  | compliant
  | permissive
  | emergency
deriving DecidableEq

/-- Observable events of one `UnifiedInjectionEngine.injectScript` call, in
program order: the strategy selection (with the descriptor the engine attaches
to `script.meta._injectionStrategy`), the strict-mode validation, and each
strategy-inject attempt with its outcome. -/
inductive EngineEvent
  | selectStrategyCall (strategy : InjectionStrategy)
  | validationCall (safe : Bool)
  | tierAttempt (tier : Tier) (ok : Bool)
deriving DecidableEq

/-- Terminal outcome of one `injectScript` call. -/
inductive Outcome
  | success
  | validationError (issues : List String)
  | injectionError
deriving DecidableEq

/-- Host outcomes consumed by one `injectScript` call: the validation verdict,
the probe reading used by the selector, the outcome of the engine-level
`CompliantInjectionStrategy.inject` call, and the environments of the two
possible `CompatibilityInjectionStrategy.inject` call sites (the mode-selected
or hybrid-fallback call, and the emergency call). -/
structure InjectEnv where
  validation : ValidationResult
  supportsUserScriptsAPI : Bool
  compliantOk : Bool
  compat1 : CompatEnv
  compat2 : CompatEnv
deriving DecidableEq

/-- `UnifiedInjectionEngine.injectScript`, as event trace plus outcome.
Control flow from the source: select a strategy and attach it; in
store-compliant mode validate and throw before any injection when unsafe;
then strict mode runs only the compliant strategy, legacy mode runs only the
compatibility strategy, and the default (hybrid) mode tries the compliant
strategy and falls back to the compatibility strategy; the outer catch
performs one emergency compatibility attempt only when `storeCompliant` and
`legacyInjection` are both disabled and `evalFallback` is enabled, and
rethrows otherwise. -/
def UnifiedInjectionEngine.injectScript (flags : FeatureFlags) (env : InjectEnv)
    (script : UserScript) : List EngineEvent × Outcome :=
  let strategy := InjectionStrategySelector.selectStrategy env.supportsUserScriptsAPI script
  let ev0 : List EngineEvent := [EngineEvent.selectStrategyCall strategy]
  if flags.storeCompliant then
    let ev1 := ev0 ++ [EngineEvent.validationCall env.validation.safe]
    if !env.validation.safe then
      (ev1, Outcome.validationError env.validation.issues)
    else
      let ev2 := ev1 ++ [EngineEvent.tierAttempt Tier.compliant env.compliantOk]
      if env.compliantOk then (ev2, Outcome.success)
      else (ev2, Outcome.injectionError)
  else if flags.legacyInjection then
    let ok := CompatibilityInjectionStrategy.inject env.compat1
    let ev1 := ev0 ++ [EngineEvent.tierAttempt Tier.permissive ok]
    if ok then (ev1, Outcome.success)
    else (ev1, Outcome.injectionError)
  else
    let ev1 := ev0 ++ [EngineEvent.tierAttempt Tier.compliant env.compliantOk]
    if env.compliantOk then (ev1, Outcome.success)
    else
      let ok2 := CompatibilityInjectionStrategy.inject env.compat1
      let ev2 := ev1 ++ [EngineEvent.tierAttempt Tier.permissive ok2]
      if ok2 then (ev2, Outcome.success)
      else if flags.evalFallback then
        let ok3 := CompatibilityInjectionStrategy.inject env.compat2
        (ev2 ++ [EngineEvent.tierAttempt Tier.emergency ok3],
         if ok3 then Outcome.success else Outcome.injectionError)
      else (ev2, Outcome.injectionError)

/-- The strategy-inject attempts of a trace, in order. -/
def tierAttempts (events : List EngineEvent) : List (Tier × Bool) :=
  events.filterMap fun e =>
    match e with
    | EngineEvent.tierAttempt t ok => some (t, ok)
    | _ => none

/-- Whether an event is the strategy-selection call. -/
def isSelectEvent (e : EngineEvent) : Bool :=
  match e with
  | EngineEvent.selectStrategyCall _ => true
  | _ => false

/-- `UnifiedInjectionEngine.injectMultipleScripts`: `Promise.allSettled` over
one independent `injectScript` task per script; collects each task's settled
outcome without aborting on failures.  `envs i` is the host environment seen
by the task of the script at batch index `i`. -/
def injectMultipleScriptsFrom (flags : FeatureFlags) (envs : Nat → InjectEnv) :
    Nat → List UserScript → List Outcome
  | _, [] => []
  | i, s :: rest =>
      (UnifiedInjectionEngine.injectScript flags (envs i) s).2 ::
        injectMultipleScriptsFrom flags envs (i + 1) rest

/-- Batch entry point (index starts at 0). -/
def UnifiedInjectionEngine.injectMultipleScripts (flags : FeatureFlags)
    (envs : Nat → InjectEnv) (scripts : List UserScript) : List Outcome :=
  injectMultipleScriptsFrom flags envs 0 scripts

/-- The cached capability state: `{available, timestamp}`. -/
structure CapabilityCache where
  available : Bool
  timestamp : Nat
deriving DecidableEq

/-- `CACHE_DURATION = 30000` ms. -/
def CACHE_DURATION : Nat := 30000

/-- Host outcomes of the two layered `checkUserScriptsAPIInternal` phases of
one probe: the immediate check and the single delayed retry (the retry's
layers run only when the immediate check fails). -/
structure ProbeEnv where
  immediate : Bool
  delayed : Bool
deriving DecidableEq

/-- The availability value a full probe settles on: the immediate check, or,
when it fails, the one retry performed after the 150 ms delay. -/
def probeOutcome (e : ProbeEnv) : Bool :=
  if e.immediate then true else e.delayed

/-- Result of one `canUseUserScriptsAPI` call: the returned boolean, the cache
state after the call, and whether any probing I/O was performed. -/
structure ProbeCallResult where
  result : Bool
  newCache : Option CapabilityCache
  probed : Bool
deriving DecidableEq

/-- `InjectionUtils.canUseUserScriptsAPI` (cached version): on a cache entry
younger than `CACHE_DURATION` return it with no I/O; otherwise probe
(immediate check plus at most one delayed retry) and cache the result with
the timestamp `now` read at entry. -/
def InjectionUtils.canUseUserScriptsAPI (cache : Option CapabilityCache)
    (now : Nat) (e : ProbeEnv) : ProbeCallResult :=
  match cache with
  | some c =>
    if now - c.timestamp < CACHE_DURATION then
      { result := c.available, newCache := some c, probed := false }
    else
      let a := probeOutcome e
      { result := a, newCache := some { available := a, timestamp := now }, probed := true }
  | none =>
      let a := probeOutcome e
      { result := a, newCache := some { available := a, timestamp := now }, probed := true }

/-- Page-side conditions seen by one enhanced-executor run: whether each of
the three internal methods throws, plus the host CSP nonce (if any script tag
on the page carries one) and whether a Trusted Types policy factory exists. -/
structure PageEnv where
  scriptTagThrows : Bool
  functionCtorThrows : Bool
  evalThrows : Bool
  cspNonce : Option String
  hasTrustedTypes : Bool
deriving DecidableEq

/-- Observables of one `tryScriptTagInjection` attempt: whether it returned
true, the nonce attribute value set on the inserted tag (the host nonce when
one is found), and whether the content went through the Trusted Types policy
(`createPolicy` path, taken when the factory exists). -/
structure ScriptTagAttempt where
  ok : Bool
  nonceApplied : Option String
  viaTrustedTypes : Bool
deriving DecidableEq

/-- `tryScriptTagInjection` inside the enhanced executor: builds the script
tag, copies the host nonce onto it when present, routes the code through a
Trusted Types policy when the factory exists, appends and removes the tag;
returns false when the insertion throws. -/
def InjectionUtils.tryScriptTagInjection (env : PageEnv) : ScriptTagAttempt :=
  { ok := !env.scriptTagThrows
    nonceApplied := env.cspNonce
    viaTrustedTypes := env.hasTrustedTypes }

/-- The three internal code-execution methods of the enhanced executor. -/
inductive ExecMethod
  | scriptTag
  | functionConstructor
  | evalDirect
deriving DecidableEq

/-- One logged internal attempt: which method ran and its outcome (every
attempt logs either its success line or its failure line). -/
structure AttemptLog where
  method : ExecMethod
  ok : Bool
deriving DecidableEq

/-- `InjectionUtils.createEnhancedScriptExecutor`: the returned executor tries
script-tag insertion, then the Function constructor, then eval, returning at
the first method that does not throw; produces the ordered attempt log and
whether any method succeeded. -/
def InjectionUtils.createEnhancedScriptExecutor (env : PageEnv) :
    List AttemptLog × Bool :=
  let st := InjectionUtils.tryScriptTagInjection env
  if st.ok then
    ([{ method := ExecMethod.scriptTag, ok := true }], true)
  else if !env.functionCtorThrows then
    ([{ method := ExecMethod.scriptTag, ok := false },
      { method := ExecMethod.functionConstructor, ok := true }], true)
  else
    ([{ method := ExecMethod.scriptTag, ok := false },
      { method := ExecMethod.functionConstructor, ok := false },
      { method := ExecMethod.evalDirect, ok := !env.evalThrows }], !env.evalThrows)

/-- The `@connect` whitelist test from `handleGMXMLHttpRequest`:
`domain === '*' || hostname === domain || hostname.endsWith('.' + domain)`
over the script's `connect` list. -/
def isAllowedDomain (connect : List String) (hostname : String) : Bool :=
  connect.any fun domain =>
    domain == "*" || hostname == domain || hostname.endsWith ("." ++ domain)

/-- The fields of the `GM_xmlhttpRequest` request details the handler reads:
the hostname component of `new URL(details.url)` (URL parsing is host
functionality), plus the pass-through fetch parameters. -/
structure GMRequestDetails where
  urlHostname : String
  method : Option String
  data : Option String
deriving DecidableEq

/-- The success payload assembled from the fetch response. -/
structure FetchResponseData where
  responseText : String
  status : Nat
  statusText : String
  responseHeaders : String
  finalUrl : String
deriving DecidableEq

/-- `GMAPIResponse` as produced by `handleGMXMLHttpRequest`. -/
inductive GMResponse
  | success (data : FetchResponseData)
  | error (msg : String)
deriving DecidableEq

/-- `GMAPIManager.handleGMXMLHttpRequest`: guards on missing parameters and
unknown scripts, then the `@connect` whitelist gate; only a whitelisted
hostname reaches `fetch` (whose settled result is the environment value
`fetchResult`).  The second component records whether a network fetch was
issued. -/
def GMAPIManager.handleGMXMLHttpRequest (scriptCache : String → Option UserScript)
    (scriptId : Option String) (details : Option GMRequestDetails)
    (fetchResult : Except String FetchResponseData) : GMResponse × Bool :=
  match scriptId, details with
  | some sid, some d =>
    match scriptCache sid with
    | none => (GMResponse.error "Script not found", false)
    | some script =>
      if isAllowedDomain script.meta.connect d.urlHostname then
        match fetchResult with
        | Except.ok dat => (GMResponse.success dat, true)
        | Except.error msg => (GMResponse.error msg, true)
      else
        (GMResponse.error ("Domain not whitelisted in @connect: " ++ d.urlHostname), false)
  | _, _ => (GMResponse.error "Missing scriptId or details parameter", false)

/-! Theorems. -/

/-- C1: In strict (store-compliant) mode, for every script whose content
validation reports unsafe, injectScript terminates with a validation error as
the terminal outcome of that call: no ExecutionStrategy's inject is invoked
for the script and no fallback tier (permissive or emergency) is attempted. -/
theorem C1_strict_validation_terminal (flags : FeatureFlags) (env : InjectEnv)
    (script : UserScript) (hmode : flags.storeCompliant = true)
    (hbad : env.validation.safe = false) :
    (UnifiedInjectionEngine.injectScript flags env script).2
        = Outcome.validationError env.validation.issues ∧
    tierAttempts (UnifiedInjectionEngine.injectScript flags env script).1 = [] := by
  simp [UnifiedInjectionEngine.injectScript, hmode, hbad, tierAttempts]

/-- Strict-mode feature flags of the store build. -/
def strictFlags : FeatureFlags := getFeatureFlags storeBuildMode

/-- A script rejected by the validator (sample input). -/
def c1Script : UserScript :=
  { id := "c1", content := "eval(payload)",
    meta := { name := "c1", grant := none, runAt := none, sandbox := none, connect := [] } }

/-- Host environment in which validation reports unsafe. -/
def c1Env : InjectEnv :=
  { validation := { safe := false, issues := ["dynamic code execution"] }
    supportsUserScriptsAPI := false
    compliantOk := true
    compat1 := { compliantOk := true, legacyOk := true }
    compat2 := { compliantOk := true, legacyOk := true } }

/-- Witness for C1 at a concrete strict-mode input. -/
theorem C1_strict_validation_terminal_witness :
    (UnifiedInjectionEngine.injectScript strictFlags c1Env c1Script).2
        = Outcome.validationError ["dynamic code execution"] ∧
    tierAttempts (UnifiedInjectionEngine.injectScript strictFlags c1Env c1Script).1 = [] :=
  C1_strict_validation_terminal strictFlags c1Env c1Script rfl rfl

/-- C2: In hybrid mode (neither store-compliant nor legacy-injection), each
inject call's cross-strategy fallback chain runs the tiers in the fixed order
compliant, then permissive, then emergency, with no tier repeated (so a tier
that failed is never re-run within the call), every tier before the last one
having failed, and the permissive tier run at most once. -/
theorem C2_hybrid_fallback_chain (flags : FeatureFlags) (env : InjectEnv)
    (script : UserScript) (h1 : flags.storeCompliant = false)
    (h2 : flags.legacyInjection = false) :
    ((tierAttempts (UnifiedInjectionEngine.injectScript flags env script).1).map Prod.fst
        = [Tier.compliant] ∨
     (tierAttempts (UnifiedInjectionEngine.injectScript flags env script).1).map Prod.fst
        = [Tier.compliant, Tier.permissive] ∨
     (tierAttempts (UnifiedInjectionEngine.injectScript flags env script).1).map Prod.fst
        = [Tier.compliant, Tier.permissive, Tier.emergency]) ∧
    (∀ p ∈ (tierAttempts (UnifiedInjectionEngine.injectScript flags env script).1).dropLast,
        p.2 = false) ∧
    (tierAttempts (UnifiedInjectionEngine.injectScript flags env script).1).countP
        (fun p => p.1 == Tier.permissive) ≤ 1 := by
  cases hc : env.compliantOk <;>
    cases hk : CompatibilityInjectionStrategy.inject env.compat1 <;>
      cases hf : flags.evalFallback <;>
        simp [UnifiedInjectionEngine.injectScript, h1, h2, hc, hk, hf, tierAttempts]

/-- Hybrid-mode flag record (store-compliant and legacy injection disabled,
emergency escalation enabled), used to witness C2. -/
def hybridFlags : FeatureFlags :=
  { storeCompliant := false, userScriptsAPI := true, legacyInjection := false
    dynamicCodeExecution := true, strictCSP := true, evalFallback := true }

/-- A plain script (sample input for the hybrid chain). -/
def c2Script : UserScript :=
  { id := "c2", content := "console.log(1)",
    meta := { name := "c2", grant := none, runAt := none, sandbox := none, connect := [] } }

/-- Host environment in which every strategy attempt fails. -/
def c2Env : InjectEnv :=
  { validation := { safe := true, issues := [] }
    supportsUserScriptsAPI := false
    compliantOk := false
    compat1 := { compliantOk := false, legacyOk := false }
    compat2 := { compliantOk := false, legacyOk := false } }

/-- Witness for C2 at a concrete hybrid-mode input. -/
theorem C2_hybrid_fallback_chain_witness :
    ((tierAttempts (UnifiedInjectionEngine.injectScript hybridFlags c2Env c2Script).1).map Prod.fst
        = [Tier.compliant] ∨
     (tierAttempts (UnifiedInjectionEngine.injectScript hybridFlags c2Env c2Script).1).map Prod.fst
        = [Tier.compliant, Tier.permissive] ∨
     (tierAttempts (UnifiedInjectionEngine.injectScript hybridFlags c2Env c2Script).1).map Prod.fst
        = [Tier.compliant, Tier.permissive, Tier.emergency]) ∧
    (∀ p ∈ (tierAttempts (UnifiedInjectionEngine.injectScript hybridFlags c2Env c2Script).1).dropLast,
        p.2 = false) ∧
    (tierAttempts (UnifiedInjectionEngine.injectScript hybridFlags c2Env c2Script).1).countP
        (fun p => p.1 == Tier.permissive) ≤ 1 :=
  C2_hybrid_fallback_chain hybridFlags c2Env c2Script rfl rfl

/-- A script containing a dynamic-evaluation construct (sample input for the
strict-mode ordering counterexample). -/
def c6Script : UserScript :=
  { id := "c6", content := "new Function(payload)()",
    meta := { name := "c6", grant := none, runAt := none, sandbox := none, connect := [] } }

/-- Host environment in which validation reports unsafe. -/
def c6Env : InjectEnv :=
  { validation := { safe := false, issues := ["dynamic function construction"] }
    supportsUserScriptsAPI := true
    compliantOk := false
    compat1 := { compliantOk := false, legacyOk := false }
    compat2 := { compliantOk := false, legacyOk := false } }

/-- C6 counterexample: in strict mode, for a script that fails validation, the
call's event trace begins with the StrategySelector invocation and only then
performs validation — so a strategy is selected (and attached) before the call
is rejected, contradicting the claim that the selector runs only after the
validation stage has completed and that a failing script never has a strategy
selected. -/
theorem C6_counterexample :
    (UnifiedInjectionEngine.injectScript strictFlags c6Env c6Script).1
        = [EngineEvent.selectStrategyCall
             (InjectionStrategySelector.selectStrategy true c6Script),
           EngineEvent.validationCall false] ∧
    (UnifiedInjectionEngine.injectScript strictFlags c6Env c6Script).2
        = Outcome.validationError ["dynamic function construction"] := by
  constructor <;> rfl

/-- C6 amended: the StrategySelector is invoked exactly once per inject call,
at the start of the call and before the validation stage; in strict mode a
script failing validation is still rejected before any execution attempt, but
a strategy has already been selected for (and attached to) it. -/
theorem C6_selection_precedes_validation (flags : FeatureFlags) (env : InjectEnv)
    (script : UserScript) :
    (UnifiedInjectionEngine.injectScript flags env script).1.head?
        = some (EngineEvent.selectStrategyCall
            (InjectionStrategySelector.selectStrategy env.supportsUserScriptsAPI script)) ∧
    ((UnifiedInjectionEngine.injectScript flags env script).1.filter isSelectEvent).length = 1 ∧
    (flags.storeCompliant = true → env.validation.safe = false →
      tierAttempts (UnifiedInjectionEngine.injectScript flags env script).1 = [] ∧
      (UnifiedInjectionEngine.injectScript flags env script).2
          = Outcome.validationError env.validation.issues) := by
  cases hsc : flags.storeCompliant <;>
    cases hli : flags.legacyInjection <;>
      cases hv : env.validation.safe <;>
        cases hc : env.compliantOk <;>
          cases hk : CompatibilityInjectionStrategy.inject env.compat1 <;>
            cases hf : flags.evalFallback <;>
              simp [UnifiedInjectionEngine.injectScript, hsc, hli, hv, hc, hk, hf,
                tierAttempts, isSelectEvent]

/-- Witness for C6's amended theorem at a concrete input (no hypotheses beyond
the inner implication, discharged at a strict-mode unsafe input). -/
theorem C6_selection_precedes_validation_witness :
    (UnifiedInjectionEngine.injectScript strictFlags c6Env c6Script).1.head?
        = some (EngineEvent.selectStrategyCall
            (InjectionStrategySelector.selectStrategy true c6Script)) ∧
    tierAttempts (UnifiedInjectionEngine.injectScript strictFlags c6Env c6Script).1 = [] :=
  ⟨(C6_selection_precedes_validation strictFlags c6Env c6Script).1,
   ((C6_selection_precedes_validation strictFlags c6Env c6Script).2.2 rfl rfl).1⟩

/-- Helper: an emergency-tier attempt can appear in an inject call's trace
only when store compliance and legacy injection are both disabled while the
emergency escalation flag is enabled. -/
theorem emergencyTier_requires_guard (flags : FeatureFlags) (env : InjectEnv)
    (script : UserScript) (p : Tier × Bool)
    (hp : p ∈ tierAttempts (UnifiedInjectionEngine.injectScript flags env script).1)
    (he : p.1 = Tier.emergency) :
    flags.storeCompliant = false ∧ flags.legacyInjection = false ∧
      flags.evalFallback = true := by
  cases hsc : flags.storeCompliant <;>
    cases hli : flags.legacyInjection <;>
      cases hv : env.validation.safe <;>
        cases hc : env.compliantOk <;>
          cases hk : CompatibilityInjectionStrategy.inject env.compat1 <;>
            cases hf : flags.evalFallback <;>
              simp [UnifiedInjectionEngine.injectScript, hsc, hli, hv, hc, hk, hf,
                tierAttempts] at hp <;>
                first
                  | (simp_all; done)
                  | (rcases hp with h | h <;> (subst h; simp_all))

/-- C9: under every defined build mode (store and compat), the engine's
emergency-fallback guard (`evalFallback` enabled while `storeCompliant` and
`legacyInjection` are both disabled) is false, and consequently no inject
call ever attempts the emergency tier. -/
theorem C9_emergency_unreachable (key : String) (mode : BuildMode)
    (hmode : BUILD_MODES key = some mode) :
    (!(getFeatureFlags mode).storeCompliant && !(getFeatureFlags mode).legacyInjection
        && (getFeatureFlags mode).evalFallback) = false ∧
    ∀ (env : InjectEnv) (script : UserScript),
      ∀ p ∈ tierAttempts
          (UnifiedInjectionEngine.injectScript (getFeatureFlags mode) env script).1,
        p.1 ≠ Tier.emergency := by
  have hcase : mode = storeBuildMode ∨ mode = compatBuildMode := by
    by_cases h1 : key == "store"
    · left
      simp [BUILD_MODES, h1] at hmode
      exact hmode.symm
    · by_cases h2 : key == "compat"
      · right
        simp [BUILD_MODES, h1, h2] at hmode
        exact hmode.symm
      · simp [BUILD_MODES, h1, h2] at hmode
  rcases hcase with h | h <;> subst h
  · refine ⟨rfl, fun env script p hp he => ?_⟩
    have := emergencyTier_requires_guard (getFeatureFlags storeBuildMode) env script p hp he
    simp [getFeatureFlags, storeBuildMode] at this
  · refine ⟨rfl, fun env script p hp he => ?_⟩
    have := emergencyTier_requires_guard (getFeatureFlags compatBuildMode) env script p hp he
    simp [getFeatureFlags, compatBuildMode] at this

/-- Witness for C9 at the store build mode and a concrete inject call. -/
theorem C9_emergency_unreachable_witness :
    BUILD_MODES "store" = some storeBuildMode ∧
    (∀ p ∈ tierAttempts
        (UnifiedInjectionEngine.injectScript (getFeatureFlags storeBuildMode) c2Env c2Script).1,
      p.1 ≠ Tier.emergency) :=
  ⟨by rfl, (C9_emergency_unreachable "store" storeBuildMode (by rfl)).2 c2Env c2Script⟩

/-- A script with start timing and a privileged (non-"none") grant that is
not one of the five special GM APIs the selector checks for. -/
def c3Script : UserScript :=
  { id := "c3", content := "GM_addStyle(css)",
    meta := { name := "c3", grant := some ["GM_addStyle"], runAt := some "document-start",
              sandbox := none, connect := [] } }

/-- C3 counterexample: `c3Script` declares run-at start and a privileged
(non-"none") grant, and the advanced primitive is available, yet
selectStrategy does not return the registration-api-dynamic method and the
computed priority score is 95, not 135 — because the first decision branch
requires a grant from the selector's special GM-API list, which "GM_addStyle"
is not on. -/
theorem C3_counterexample :
    needsEarlyExecution c3Script = true ∧
    (scriptGrants c3Script).any (fun g => g != "none") = true ∧
    (InjectionStrategySelector.selectStrategy true c3Script).method
        ≠ InjMethod.userscriptsDynamic ∧
    InjectionStrategySelector.getStrategyScore
        (InjectionStrategySelector.selectStrategy true c3Script) c3Script = 95 := by
  decide

/-- C3 amended: for every script that declares run-at "start" timing and
requests at least one grant from the selector's special GM-API list
(GM_setValue, GM_getValue, GM_xmlhttpRequest, GM_getResourceText,
GM_getResourceURL), when the advanced UserScripts registration primitive is
available, selectStrategy returns the userscripts-dynamic method with start
timing in the USER_SCRIPT world, and the computed priority score equals
135 = 100 + 20 + 15. -/
theorem C3_start_special_grant_dynamic (script : UserScript)
    (h1 : needsEarlyExecution script = true)
    (h2 : hasSpecialAPIs script = true) :
    (InjectionStrategySelector.selectStrategy true script).method
        = InjMethod.userscriptsDynamic ∧
    (InjectionStrategySelector.selectStrategy true script).timing = Timing.document_start ∧
    (InjectionStrategySelector.selectStrategy true script).world = World.USER_SCRIPT ∧
    InjectionStrategySelector.getStrategyScore
        (InjectionStrategySelector.selectStrategy true script) script = 135 := by
  have hsel : InjectionStrategySelector.selectStrategy true script
      = { method := InjMethod.userscriptsDynamic
          world := World.USER_SCRIPT
          timing := Timing.document_start
          reason := "Early execution with GM APIs requires dynamic UserScripts API" } := by
    simp [InjectionStrategySelector.selectStrategy, h1, h2]
  have hrun : scriptRunAt script = "document-start" := by
    have := h1
    simp [needsEarlyExecution] at this
    exact this
  have hany : (scriptGrants script).any (fun g => g != "none") = true := by
    have h2' := h2
    simp [hasSpecialAPIs, List.any_eq_true] at h2'
    obtain ⟨g, hg, hmem⟩ := h2'
    refine List.any_eq_true.mpr ⟨g, hg, ?_⟩
    simp [specialAPIList] at hmem
    rcases hmem with h | h | h | h | h <;> subst h <;> decide
  refine ⟨by rw [hsel], by rw [hsel], by rw [hsel], ?_⟩
  rw [hsel]
  simp [InjectionStrategySelector.getStrategyScore, hrun, hany,
    InjectionUtils.convertRunAtTiming]

/-- A script with start timing and a special GM-API grant (sample input). -/
def c3WitnessScript : UserScript :=
  { id := "c3w", content := "GM_setValue(k, v)",
    meta := { name := "c3w", grant := some ["GM_setValue"], runAt := some "document-start",
              sandbox := none, connect := [] } }

/-- Witness for C3's amended theorem at a concrete input. -/
theorem C3_start_special_grant_dynamic_witness :
    (InjectionStrategySelector.selectStrategy true c3WitnessScript).method
        = InjMethod.userscriptsDynamic ∧
    (InjectionStrategySelector.selectStrategy true c3WitnessScript).timing
        = Timing.document_start ∧
    (InjectionStrategySelector.selectStrategy true c3WitnessScript).world = World.USER_SCRIPT ∧
    InjectionStrategySelector.getStrategyScore
        (InjectionStrategySelector.selectStrategy true c3WitnessScript) c3WitnessScript = 135 :=
  C3_start_special_grant_dynamic c3WitnessScript (by decide) (by decide)

/-- A script with no grants but an explicit non-"raw" sandbox mode. -/
def c4Script : UserScript :=
  { id := "c4", content := "console.log(1)",
    meta := { name := "c4", grant := some [], runAt := none, sandbox := some "DOM",
              connect := [] } }

/-- C4 counterexample: `c4Script` has no grants and the advanced primitive is
unavailable, yet because its sandbox mode is non-"raw" the selector requires
isolation and places it in the USER_SCRIPT world, not the shared MAIN world —
the selection is not independent of the sandbox mode. -/
theorem C4_counterexample :
    scriptGrants c4Script = [] ∧
    (InjectionStrategySelector.selectStrategy false c4Script).method
        = InjMethod.contentScript ∧
    (InjectionStrategySelector.selectStrategy false c4Script).world ≠ World.MAIN := by
  decide

/-- C4 amended: for every script with no grants whose sandbox mode is "raw"
(explicitly or by default), when the advanced primitive is unavailable the
selector chooses the direct execution strategy: the content-script method in
the shared MAIN world at the script's declared timing. -/
theorem C4_no_grants_raw_direct (script : UserScript)
    (hg : scriptGrants script = [])
    (hs : scriptSandbox script = "raw") :
    (InjectionStrategySelector.selectStrategy false script).method
        = InjMethod.contentScript ∧
    (InjectionStrategySelector.selectStrategy false script).world = World.MAIN ∧
    (InjectionStrategySelector.selectStrategy false script).timing
        = InjectionUtils.convertRunAtTiming (scriptRunAt script) := by
  simp [InjectionStrategySelector.selectStrategy, hasSpecialAPIs, hg,
    selectorNeedsIsolation, hs, hasGMAPIs]

/-- A script with no grants and no sandbox declaration (sample input). -/
def c4WitnessScript : UserScript :=
  { id := "c4w", content := "console.log(1)",
    meta := { name := "c4w", grant := none, runAt := some "document-idle", sandbox := none,
              connect := [] } }

/-- Witness for C4's amended theorem at a concrete input. -/
theorem C4_no_grants_raw_direct_witness :
    (InjectionStrategySelector.selectStrategy false c4WitnessScript).method
        = InjMethod.contentScript ∧
    (InjectionStrategySelector.selectStrategy false c4WitnessScript).world = World.MAIN ∧
    (InjectionStrategySelector.selectStrategy false c4WitnessScript).timing
        = InjectionUtils.convertRunAtTiming (scriptRunAt c4WitnessScript) :=
  C4_no_grants_raw_direct c4WitnessScript (by decide) (by decide)

/-- Helper: the boolean a probe call returns is the `available` field of the
cache entry it leaves behind. -/
theorem canUse_result_eq_cached (cache : Option CapabilityCache) (n : Nat)
    (e : ProbeEnv) (cc : CapabilityCache)
    (h : (InjectionUtils.canUseUserScriptsAPI cache n e).newCache = some cc) :
    (InjectionUtils.canUseUserScriptsAPI cache n e).result = cc.available := by
  cases cache with
  | none =>
    simp [InjectionUtils.canUseUserScriptsAPI] at h ⊢
    rw [← h]
  | some c =>
    by_cases hlt : n - c.timestamp < CACHE_DURATION <;>
      simp [InjectionUtils.canUseUserScriptsAPI, hlt] at h ⊢ <;> rw [← h]

/-- C5: for every pair of `canUseUserScriptsAPI` calls where the second occurs
within 30 000 ms of the timestamp cached by the first, both calls return the
same boolean and the second performs no probing I/O (it is answered from the
cache, which it leaves unchanged); a call made after the TTL has expired
re-probes and refreshes the cached value and timestamp. -/
theorem C5_probe_cache (cache : Option CapabilityCache) (n1 n2 : Nat)
    (e1 e2 : ProbeEnv) (cc : CapabilityCache)
    (hcc : (InjectionUtils.canUseUserScriptsAPI cache n1 e1).newCache = some cc) :
    ((n2 - cc.timestamp < CACHE_DURATION) →
       InjectionUtils.canUseUserScriptsAPI (some cc) n2 e2
         = { result := cc.available, newCache := some cc, probed := false } ∧
       (InjectionUtils.canUseUserScriptsAPI (some cc) n2 e2).result
         = (InjectionUtils.canUseUserScriptsAPI cache n1 e1).result) ∧
    ((CACHE_DURATION ≤ n2 - cc.timestamp) →
       InjectionUtils.canUseUserScriptsAPI (some cc) n2 e2
         = { result := probeOutcome e2
             newCache := some { available := probeOutcome e2, timestamp := n2 }
             probed := true }) := by
  constructor
  · intro h
    have hres := canUse_result_eq_cached cache n1 e1 cc hcc
    constructor
    · simp [InjectionUtils.canUseUserScriptsAPI, h]
    · rw [hres]
      simp [InjectionUtils.canUseUserScriptsAPI, h]
  · intro h
    simp [InjectionUtils.canUseUserScriptsAPI, Nat.not_lt.mpr h]

/-- Witness for C5 at concrete inputs: a first probing call at time 0, a
cache-hit call at time 10 000, and a re-probing call at time 40 000. -/
theorem C5_probe_cache_witness :
    (InjectionUtils.canUseUserScriptsAPI
        (some { available := true, timestamp := 0 }) 10000 { immediate := false, delayed := false }
      = { result := true, newCache := some { available := true, timestamp := 0 },
          probed := false }) ∧
    (InjectionUtils.canUseUserScriptsAPI
        (some { available := true, timestamp := 0 }) 40000 { immediate := false, delayed := false }
      = { result := false, newCache := some { available := false, timestamp := 40000 },
          probed := true }) :=
  ⟨((C5_probe_cache none 0 10000 { immediate := true, delayed := false }
        { immediate := false, delayed := false } { available := true, timestamp := 0 }
        (by decide)).1 (by decide)).1,
   (C5_probe_cache none 0 40000 { immediate := true, delayed := false }
        { immediate := false, delayed := false } { available := true, timestamp := 0 }
        (by decide)).2 (by decide)⟩

/-- Helper: the batch produces exactly one outcome per script. -/
theorem injectMultipleScriptsFrom_length (flags : FeatureFlags) (envs : Nat → InjectEnv)
    (scripts : List UserScript) :
    ∀ i : Nat, (injectMultipleScriptsFrom flags envs i scripts).length = scripts.length := by
  induction scripts with
  | nil => intro i; rfl
  | cons s rest ih => intro i; simp [injectMultipleScriptsFrom, ih]

/-- Helper: the batch item at index `i` is exactly the settled outcome of that
script's own independent inject task. -/
theorem injectMultipleScriptsFrom_getElem (flags : FeatureFlags) (envs : Nat → InjectEnv)
    (scripts : List UserScript) :
    ∀ (j i : Nat) (s : UserScript), scripts[i]? = some s →
      (injectMultipleScriptsFrom flags envs j scripts)[i]?
        = some (UnifiedInjectionEngine.injectScript flags (envs (j + i)) s).2 := by
  induction scripts with
  | nil => intro j i s h; simp at h
  | cons a rest ih =>
    intro j i s h
    cases i with
    | zero =>
      simp at h
      subst h
      simp [injectMultipleScriptsFrom]
    | succ k =>
      simp at h
      have step := ih (j + 1) k s h
      simpa [injectMultipleScriptsFrom, Nat.add_assoc, Nat.add_comm 1 k] using step

/-- C7: for every batch, injectMultipleScripts produces exactly one settled
per-item outcome for each script in the batch (it always completes with a
full report), the outcome at index `i` is exactly the outcome of that
script's own inject call, and it is unaffected by the host environments of
the other items — so no item's failure cancels, blocks, or changes any other
item. -/
theorem C7_batch_partial_failure (flags : FeatureFlags)
    (envs envs' : Nat → InjectEnv) (scripts : List UserScript) (i : Nat)
    (s : UserScript) (hs : scripts[i]? = some s) (henv : envs i = envs' i) :
    (UnifiedInjectionEngine.injectMultipleScripts flags envs scripts).length
        = scripts.length ∧
    (UnifiedInjectionEngine.injectMultipleScripts flags envs scripts)[i]?
        = some (UnifiedInjectionEngine.injectScript flags (envs i) s).2 ∧
    (UnifiedInjectionEngine.injectMultipleScripts flags envs scripts)[i]?
        = (UnifiedInjectionEngine.injectMultipleScripts flags envs' scripts)[i]? := by
  have h1 := injectMultipleScriptsFrom_length flags envs scripts 0
  have h2 := injectMultipleScriptsFrom_getElem flags envs scripts 0 i s hs
  have h3 := injectMultipleScriptsFrom_getElem flags envs' scripts 0 i s hs
  rw [Nat.zero_add] at h2 h3
  refine ⟨h1, h2, ?_⟩
  rw [UnifiedInjectionEngine.injectMultipleScripts, h2,
    UnifiedInjectionEngine.injectMultipleScripts, h3, henv]

/-- A failing script and a succeeding script (sample batch inputs). -/
def c7FailEnv : InjectEnv :=
  { validation := { safe := true, issues := [] }
    supportsUserScriptsAPI := false
    compliantOk := false
    compat1 := { compliantOk := false, legacyOk := false }
    compat2 := { compliantOk := false, legacyOk := false } }

/-- Per-index batch environment: index 0 fails every strategy, index 1
succeeds at the compliant strategy. -/
def c7Envs : Nat → InjectEnv :=
  fun i => if i == 0 then c7FailEnv else c1Env

/-- Witness for C7 at a concrete two-script batch whose first item fails:
applies the theorem at index 1 and checks the second item's outcome. -/
theorem C7_batch_partial_failure_witness :
    (UnifiedInjectionEngine.injectMultipleScripts hybridFlags c7Envs [c2Script, c1Script]).length
        = 2 ∧
    (UnifiedInjectionEngine.injectMultipleScripts hybridFlags c7Envs [c2Script, c1Script])[1]?
        = some (UnifiedInjectionEngine.injectScript hybridFlags (c7Envs 1) c1Script).2 :=
  ⟨(C7_batch_partial_failure hybridFlags c7Envs c7Envs [c2Script, c1Script] 1 c1Script
      (by decide) rfl).1,
   (C7_batch_partial_failure hybridFlags c7Envs c7Envs [c2Script, c1Script] 1 c1Script
      (by decide) rfl).2.1⟩

/-- C8: every enhanced-executor run attempts its internal fallbacks in the
fixed order structured script-tag insertion, then Function-constructor
synthesis, then last-resort eval, stopping at the first attempt that does not
throw (every attempt before the last one failed), with one log entry per
attempt carrying its outcome, success overall exactly when some attempt
succeeded, and the script-tag attempt honouring the host CSP nonce and the
Trusted Types policy when present. -/
theorem C8_enhanced_executor_order (env : PageEnv) :
    ((InjectionUtils.createEnhancedScriptExecutor env).1.map AttemptLog.method
        = [ExecMethod.scriptTag] ∨
     (InjectionUtils.createEnhancedScriptExecutor env).1.map AttemptLog.method
        = [ExecMethod.scriptTag, ExecMethod.functionConstructor] ∨
     (InjectionUtils.createEnhancedScriptExecutor env).1.map AttemptLog.method
        = [ExecMethod.scriptTag, ExecMethod.functionConstructor, ExecMethod.evalDirect]) ∧
    (∀ a ∈ (InjectionUtils.createEnhancedScriptExecutor env).1.dropLast, a.ok = false) ∧
    ((InjectionUtils.createEnhancedScriptExecutor env).2 = true ↔
      ∃ a ∈ (InjectionUtils.createEnhancedScriptExecutor env).1, a.ok = true) ∧
    (InjectionUtils.tryScriptTagInjection env).nonceApplied = env.cspNonce ∧
    (InjectionUtils.tryScriptTagInjection env).viaTrustedTypes = env.hasTrustedTypes := by
  cases hst : env.scriptTagThrows <;>
    cases hfc : env.functionCtorThrows <;>
      cases hev : env.evalThrows <;>
        simp [InjectionUtils.createEnhancedScriptExecutor,
          InjectionUtils.tryScriptTagInjection, hst, hfc, hev]

/-- A page where the script-tag and Function-constructor attempts throw but
eval succeeds, with a host nonce and a Trusted Types factory present. -/
def c8Page : PageEnv :=
  { scriptTagThrows := true, functionCtorThrows := true, evalThrows := false
    cspNonce := some "abc123", hasTrustedTypes := true }

/-- Witness for C8 at a concrete page environment. -/
theorem C8_enhanced_executor_order_witness :
    ((InjectionUtils.createEnhancedScriptExecutor c8Page).1.map AttemptLog.method
        = [ExecMethod.scriptTag] ∨
     (InjectionUtils.createEnhancedScriptExecutor c8Page).1.map AttemptLog.method
        = [ExecMethod.scriptTag, ExecMethod.functionConstructor] ∨
     (InjectionUtils.createEnhancedScriptExecutor c8Page).1.map AttemptLog.method
        = [ExecMethod.scriptTag, ExecMethod.functionConstructor, ExecMethod.evalDirect]) ∧
    (InjectionUtils.tryScriptTagInjection c8Page).nonceApplied = some "abc123" :=
  ⟨(C8_enhanced_executor_order c8Page).1,
   (C8_enhanced_executor_order c8Page).2.2.2.1⟩

/-- C10: for every GM_xmlhttpRequest call, a network fetch is issued only
when the request URL's hostname passes the script's `@connect` whitelist (the
literal "*", an exact domain match, or a subdomain-suffix match); for a found
script with a non-whitelisted hostname the handler returns an error response
naming the domain and performs no network request. -/
theorem C10_connect_whitelist (scriptCache : String → Option UserScript)
    (scriptId : Option String) (details : Option GMRequestDetails)
    (fetchResult : Except String FetchResponseData) :
    ((GMAPIManager.handleGMXMLHttpRequest scriptCache scriptId details fetchResult).2 = true →
      ∃ sid d script, scriptId = some sid ∧ details = some d ∧
        scriptCache sid = some script ∧
        isAllowedDomain script.meta.connect d.urlHostname = true) ∧
    (∀ sid d script, scriptId = some sid → details = some d →
      scriptCache sid = some script →
      isAllowedDomain script.meta.connect d.urlHostname = false →
      GMAPIManager.handleGMXMLHttpRequest scriptCache scriptId details fetchResult
        = (GMResponse.error ("Domain not whitelisted in @connect: " ++ d.urlHostname),
           false)) := by
  constructor
  · intro h
    cases scriptId with
    | none => simp [GMAPIManager.handleGMXMLHttpRequest] at h
    | some sid =>
      cases details with
      | none => simp [GMAPIManager.handleGMXMLHttpRequest] at h
      | some d =>
        cases hc : scriptCache sid with
        | none => simp [GMAPIManager.handleGMXMLHttpRequest, hc] at h
        | some script =>
          by_cases ha : isAllowedDomain script.meta.connect d.urlHostname
          · exact ⟨sid, d, script, rfl, rfl, hc, ha⟩
          · simp [GMAPIManager.handleGMXMLHttpRequest, hc, ha] at h
  · intro sid d script hsid hd hc ha
    subst hsid
    subst hd
    simp [GMAPIManager.handleGMXMLHttpRequest, hc, ha]

/-- A script whose `@connect` whitelist allows api.example.com and its
subdomains (sample input). -/
def c10Script : UserScript :=
  { id := "c10", content := "GM_xmlhttpRequest(req)",
    meta := { name := "c10", grant := some ["GM_xmlhttpRequest"], runAt := none,
              sandbox := none, connect := ["example.com"] } }

/-- Script cache holding exactly `c10Script`. -/
def c10Cache : String → Option UserScript :=
  fun sid => if sid == "c10" then some c10Script else none

/-- Witness for C10: a request to a non-whitelisted host returns the error
naming that host without issuing a fetch. -/
theorem C10_connect_whitelist_witness :
    GMAPIManager.handleGMXMLHttpRequest c10Cache (some "c10")
        (some { urlHostname := "evil.com", method := some "GET", data := none })
        (Except.ok { responseText := "", status := 200, statusText := "OK",
                     responseHeaders := "", finalUrl := "" })
      = (GMResponse.error "Domain not whitelisted in @connect: evil.com", false) :=
  (C10_connect_whitelist c10Cache (some "c10")
      (some { urlHostname := "evil.com", method := some "GET", data := none })
      (Except.ok { responseText := "", status := 200, statusText := "OK",
                   responseHeaders := "", finalUrl := "" })).2
    "c10" { urlHostname := "evil.com", method := some "GET", data := none } c10Script
    rfl rfl (by decide) (by decide)

end CarryMonkey
